import Mathlib

/-!
# Verification of the `my-shop` Telegram ordering bot (`src/tg_bot.py`)

A shallow embedding of the conversation state machine, the cart client, the
catalog client's image resolution, and the top-level dispatcher of
`tg_bot.py`, with theorems settling the specification claims.

Conventions of the embedding:
* Python dict fields that may be absent become `Option` fields; Python
  truthiness on strings is modelled by also treating `some ""` as falsy where
  the source tests truthiness.
* `qty_kg` and `price` values are Python floats in the source; they are
  modelled as exact rationals (`ℚ`).  The backend's numeric record ids are
  naturals, with `0` standing for a missing/falsy id.
* Network calls are modelled by their observable response outcome (HTTP
  status), and `requests.raise_for_status` by `Except`.
-/

namespace TgBot

/-- State label `STATE_START` (tg_bot.py line 25). -/
def STATE_START : String := "START"

/-- State label `STATE_HANDLE_MENU` (tg_bot.py line 26). -/
def STATE_HANDLE_MENU : String := "HANDLE_MENU"

/-- State label `STATE_HANDLE_DESCRIPTION` (tg_bot.py line 27). -/
def STATE_HANDLE_DESCRIPTION : String := "HANDLE_DESCRIPTION"

/-- State label `STATE_HANDLE_CART` (tg_bot.py line 28). -/
def STATE_HANDLE_CART : String := "HANDLE_CART"

/-- State label `STATE_WAITING_EMAIL` (tg_bot.py line 29). -/
def STATE_WAITING_EMAIL : String := "WAITING_EMAIL"

/-- Modelled from Python's `str.strip()` with no argument: remove leading and
trailing whitespace. -/
def py_strip (s : String) : String :=
  ⟨((s.data.dropWhile Char.isWhitespace).reverse.dropWhile Char.isWhitespace).reverse⟩

/-- Modelled from Python's `c in s` membership test on strings, for a
single-character needle. -/
def py_contains (s : String) (c : Char) : Bool :=
  s.data.contains c

/-- Modelled from Python's `str.startswith`. -/
def py_startswith (s pre : String) : Bool :=
  pre.data.isPrefixOf s.data

/-- A cart-item identifier as used in backend URLs and callback payloads:
either a Strapi `documentId` (a string) or the raw numeric `id`. -/
inductive ItemKey where
  | doc (s : String)
  | num (n : Nat)
deriving DecidableEq, Repr

/-- Embeds `get_cart_item_identifier` (tg_bot.py lines 196-197):
`cart_item.get("documentId") or cart_item.get("id")`.  Python truthiness:
a missing or empty `documentId` falls through to `id`; a missing or zero
`id` yields `None` (here `none`).  `documentId = none` models a missing
key, `some ""` an empty string; `id = 0` models a missing or zero id. -/
def get_cart_item_identifier (documentId : Option String) (id : Nat) : Option ItemKey :=
  match documentId with
  | some d => if d = "" then (if id = 0 then none else some (.num id)) else some (.doc d)
  | none => if id = 0 then none else some (.num id)

/-- A cart-item record as stored by the content backend (`/api/cart-items`):
numeric `id`, optional `documentId`, owning cart, referenced product and
quantity in kilograms. -/
structure Item where
  id : Nat
  documentId : Option String
  cartId : Nat
  productId : Nat
  qty_kg : ℚ
deriving DecidableEq, Repr

/-- The cart-item collection of the content backend, with the id counter the
backend uses to assign fresh numeric ids. -/
structure Backend where
  items : List Item
  nextId : Nat
deriving Repr

/-- The identifier of a stored item, as `get_cart_item_identifier` computes
it from the record's fields. -/
def Item.key (it : Item) : Option ItemKey :=
  get_cart_item_identifier it.documentId it.id

/-- Embeds `find_cart_item` (tg_bot.py lines 180-193): GET `/api/cart-items` filtered
by cart id and product id; returns the first record or `None`. -/
def find_cart_item (s : Backend) (cart_id product_id : Nat) : Option Item :=
  (s.items.filter fun it => it.cartId = cart_id && it.productId = product_id).head?

/-- Embeds `create_cart_item` (tg_bot.py lines 200-218): POST `/api/cart-items` with
cart, product and `qty_kg`; the backend stores a fresh record and returns it. -/
def create_cart_item (s : Backend) (cart_id product_id : Nat) (qty_kg : ℚ) :
    Item × Backend :=
  let it : Item := ⟨s.nextId + 1, none, cart_id, product_id, qty_kg⟩
  (it, ⟨s.items ++ [it], s.nextId + 1⟩)

/-- Embeds `update_cart_item_qty` (tg_bot.py lines 221-243): PUT
`/api/cart-items/{item_id}` setting `qty_kg`.  A 404 (no record with that
identifier) returns `None`; otherwise the updated record is returned. -/
def update_cart_item_qty (s : Backend) (item_id : ItemKey) (qty_kg : ℚ) :
    Option Item × Backend :=
  match s.items.find? (fun it => it.key = some item_id) with
  | none => (none, s)
  | some it0 =>
    (some { it0 with qty_kg := qty_kg },
     ⟨s.items.map fun it => if it.key = some item_id then { it with qty_kg := qty_kg } else it,
      s.nextId⟩)

/-- A concurrent hard delete of the record with the given identifier,
the race `add_or_increment_item`'s fallback guards against (spec §4.2). -/
def hard_delete_by_key (s : Backend) (item_id : ItemKey) : Backend :=
  ⟨s.items.filter fun it => ¬it.key = some item_id, s.nextId⟩

/-- Embeds `add_or_increment_item` (tg_bot.py lines 246-260), with an explicit
`raceDelete` flag modelling a concurrent hard delete striking between the
`find_cart_item` lookup and the `update_cart_item_qty` call: find the item
for the (cart, product) pair; if none, create one with `qty_to_add`; else
update its quantity to `current + qty_to_add`, falling back to creating a
fresh item with the summed quantity when the update reports 404.  A found
item with no identifier hits the update URL with `None` and likewise 404s
into the create fallback.  (`current_qty = existing.get("qty_kg") or 0`
leaves a rational quantity unchanged: a falsy `0.0` is replaced by `0`.) -/
def add_or_increment_item_racy (raceDelete : Bool) (s : Backend)
    (cart_id product_id : Nat) (qty_to_add : ℚ) : Item × Backend :=
  match find_cart_item s cart_id product_id with
  | none => create_cart_item s cart_id product_id qty_to_add
  | some existing =>
    let new_qty := existing.qty_kg + qty_to_add
    match existing.key with
    | none => create_cart_item s cart_id product_id new_qty
    | some item_id =>
      let s1 := if raceDelete then hard_delete_by_key s item_id else s
      match update_cart_item_qty s1 item_id new_qty with
      | (some updated, s2) => (updated, s2)
      | (none, s2) => create_cart_item s2 cart_id product_id new_qty

/-- Embeds `add_or_increment_item` (tg_bot.py lines 246-260) in a sequential
execution (no concurrent delete between the find and the update). -/
def add_or_increment_item (s : Backend) (cart_id product_id : Nat)
    (qty_to_add : ℚ) : Item × Backend :=
  add_or_increment_item_racy false s cart_id product_id qty_to_add

/-- The items a backend state holds for one (cart, product) pair, in backend
return order. -/
def itemsForPair (s : Backend) (cart_id product_id : Nat) : List Item :=
  s.items.filter fun it => it.cartId = cart_id && it.productId = product_id

/-- Backend well-formedness: every stored numeric id is positive and at most
`nextId` (so freshly assigned ids collide with nothing), and stored
`documentId`s, when present, are nonempty. -/
def Backend.wf (s : Backend) : Prop :=
  ∀ it ∈ s.items, 0 < it.id ∧ it.id ≤ s.nextId ∧ ∀ d, it.documentId = some d → d ≠ ""

/-! ## Cart lookup-or-create (`ensure_cart_exists`, claim C7) -/

/-- A cart record of the content backend (`/api/carts`): numeric id and the
owning chat identity stored in the `tg_id` field (tg_bot.py line 23). -/
structure CartRec where
  id : Nat
  tg_id : String
deriving DecidableEq, Repr

/-- The cart collection of the content backend, with its fresh-id counter. -/
structure CartBackend where
  carts : List CartRec
  nextId : Nat
deriving Repr

/-- Embeds `get_cart_by_tg` (tg_bot.py lines 145-155): GET `/api/carts` filtered by
`tg_id`; returns the first matching cart or `None`. -/
def get_cart_by_tg (s : CartBackend) (tg_id : String) : Option CartRec :=
  (s.carts.filter fun c => c.tg_id = tg_id).head?

/-- Embeds `create_cart_for_tg` (tg_bot.py lines 158-170): POST `/api/carts` with the
`tg_id`; the backend stores a fresh cart and returns it. -/
def create_cart_for_tg (s : CartBackend) (tg_id : String) : CartRec × CartBackend :=
  let c : CartRec := ⟨s.nextId + 1, tg_id⟩
  (c, ⟨s.carts ++ [c], s.nextId + 1⟩)

/-- Embeds `ensure_cart_exists` (tg_bot.py lines 173-177): return the cart found by
`get_cart_by_tg` if any, else create one. -/
def ensure_cart_exists (s : CartBackend) (tg_id : String) : CartRec × CartBackend :=
  match get_cart_by_tg s tg_id with
  | some cart => (cart, s)
  | none => create_cart_for_tg s tg_id

/-! ## Item removal: hard delete plus soft hide (claim C2)

These definitions embed the response handling of `delete_cart_item`,
`update_cart_item_qty` / `hide_cart_item` and the `remove_item_` branch of
`handle_cart`, as functions of the HTTP status each backend call returns. -/

/-- Embeds `delete_cart_item` (tg_bot.py lines 263-274) as a function of the DELETE
call's HTTP status: 404 returns `False`; any other status `>= 400` raises
(`response.raise_for_status()`); otherwise returns `True`. -/
def delete_cart_item_response (status : Nat) : Except Nat Bool :=
  if status = 404 then .ok false
  else if 400 ≤ status then .error status
  else .ok true

/-- The response handling of `update_cart_item_qty` (tg_bot.py lines 221-243)
as a function of the PUT call's HTTP status: 404 returns `None` (the
`suppress_not_found` flag only mutes the log line); any other status
`>= 400` raises; otherwise the updated record (here `some ()`) is returned. -/
def update_cart_item_qty_response (status : Nat) : Except Nat (Option Unit) :=
  if status = 404 then .ok none
  else if 400 ≤ status then .error status
  else .ok (some ())

/-- Embeds `hide_cart_item` (tg_bot.py lines 277-279): update the item's quantity to
`0` with not-found suppressed; report whether the update returned a record. -/
def hide_cart_item_response (status : Nat) : Except Nat Bool :=
  match update_cart_item_qty_response status with
  | .ok updated => .ok updated.isSome
  | .error e => .error e

/-- What the `remove_item_` branch tells the user. -/
inductive RemovalMessage where
  | success
  | alreadyRemoved
  | failure
deriving DecidableEq, Repr

/-- The observable outcome of the `remove_item_` branch: which of the two
backend calls were actually made, and the message shown to the user. -/
structure RemoveOutcome where
  delete_attempted : Bool
  hide_attempted : Bool
  message : RemovalMessage
deriving DecidableEq, Repr

/-- The `remove_item_` branch of `handle_cart` (tg_bot.py lines 667-684) as a
function of the statuses the two backend calls would return: inside one
`try`, run the hard delete, then the soft hide; report success when either
returned `True`, "already removed" when both returned `False`, and on any
raised error report failure — an error in the hard delete skips the hide
call entirely. -/
def handle_cart_remove_item (delete_status hide_status : Nat) : RemoveOutcome :=
  match delete_cart_item_response delete_status with
  | .error _ => ⟨true, false, .failure⟩
  | .ok deleted =>
    match hide_cart_item_response hide_status with
    | .error _ => ⟨true, true, .failure⟩
    | .ok soft_deleted =>
      ⟨true, true, if deleted || soft_deleted then .success else .alreadyRemoved⟩

/-! ## Cart rendering (`show_cart`, claim C3) -/

/-- The product view populated into a cart item by
`get_cart_items_with_products` (tg_bot.py lines 282-294); `price` follows
`product.get("price") or 0` with the falsy default folded in. -/
structure ProductRec where
  id : Nat
  title : String
  price : ℚ
deriving DecidableEq, Repr

/-- A cart-item record as returned by `get_cart_items_with_products`: the raw
fields `show_cart` reads.  `qty_kg` folds in `float(cart_item.get("qty_kg")
or 0)`; `product` is `none` when the relation is not populated
(`cart_item.get("product") or {}`). -/
structure CartItemView where
  id : Nat
  documentId : Option String
  qty_kg : ℚ
  product : Option ProductRec
deriving DecidableEq, Repr

/-- The identifier `show_cart` computes for a fetched item (tg_bot.py
line 607). -/
def CartItemView.key (it : CartItemView) : Option ItemKey :=
  get_cart_item_identifier it.documentId it.id

/-- The string form of an identifier as interpolated into the
`remove_item_{item_id}` callback payload. -/
def ItemKey.callbackString : ItemKey → String
  | .doc s => s
  | .num n => toString n

/-- A button row of the cart keyboard, by its callback payload. -/
inductive CartButton where
  | remove (item_id : ItemKey)
  | pay
  | back_to_menu
deriving DecidableEq, Repr

/-- One rendered cart line (tg_bot.py lines 610-617): the quantity, unit
price and computed subtotal displayed for an included item. -/
structure RenderEntry where
  qty : ℚ
  price : ℚ
  subtotal : ℚ
deriving DecidableEq, Repr

/-- What a `show_cart` call displays: whether the empty-cart placeholder was
shown, the rendered item lines, the displayed total and the keyboard. -/
structure CartRender where
  is_empty_placeholder : Bool
  entries : List RenderEntry
  total : ℚ
  buttons : List CartButton
deriving DecidableEq, Repr

/-- The item loop of `show_cart` (tg_bot.py lines 606-625): walk the kept
items in backend order; skip an item whose identifier is falsy; otherwise
emit its line with `subtotal = qty * price`, add the subtotal into the
running total, and emit its removal button. -/
def show_cart_loop : List CartItemView → List RenderEntry × ℚ × List CartButton
  | [] => ([], 0, [])
  | it :: rest =>
    match it.key with
    | none => show_cart_loop rest
    | some item_id =>
      let (entries, total, buttons) := show_cart_loop rest
      let qty := it.qty_kg
      let price := (it.product.map ProductRec.price).getD 0
      (⟨qty, price, qty * price⟩ :: entries,
       qty * price + total,
       .remove item_id :: buttons)

/-- The empty-cart placeholder (tg_bot.py lines 571-576 and 594-600): the
"корзина пока пуста" message with a lone back-to-menu button. -/
def empty_cart_render : CartRender :=
  ⟨true, [], 0, [.back_to_menu]⟩

/-- Embeds `show_cart` (tg_bot.py lines 569-638) as a function of the cart lookup
result and the fetched items: no cart shows the placeholder; else items with
`qty_kg <= 0` are dropped, and if none remain the placeholder is shown;
otherwise the item loop runs and the keyboard is the removal buttons
followed by the pay button and the back-to-menu button. -/
def show_cart_render (cart : Option CartRec) (items_raw : List CartItemView) :
    CartRender :=
  match cart with
  | none => empty_cart_render
  | some _ =>
    if (items_raw.filter fun it => ¬it.qty_kg ≤ 0).isEmpty then empty_cart_render
    else
      ⟨false,
       (show_cart_loop (items_raw.filter fun it => ¬it.qty_kg ≤ 0)).1,
       (show_cart_loop (items_raw.filter fun it => ¬it.qty_kg ≤ 0)).2.1,
       (show_cart_loop (items_raw.filter fun it => ¬it.qty_kg ≤ 0)).2.2
         ++ [.pay] ++ [.back_to_menu]⟩

/-! ## Product image resolution (`get_product_by_id`, claim C8) -/

/-- A derived image rendition inside `picture["formats"]`; `url = none`
models a missing key and `some ""` an empty (falsy) value. -/
structure Rendition where
  url : Option String
deriving DecidableEq, Repr

/-- The `picture` object of a product record: its original `url` and the
`formats` sub-object with optional `medium` and `small` renditions.  A
missing or falsy `formats` dict is modelled by both renditions being
`none`. -/
structure Picture where
  url : Option String
  formats_medium : Option Rendition
  formats_small : Option Rendition
deriving DecidableEq, Repr

/-- Modelled from Python's `urllib.parse.urljoin` for the URL shapes this
program produces: an absolute `http(s)` URL replaces the base; a URL
starting with `/` is joined onto the base's scheme-and-authority; any other
relative URL replaces the last segment of the base's path. -/
def urljoin (base url : String) : String :=
  if py_startswith url "http://" || py_startswith url "https://" then url
  else if py_startswith url "/" then
    let stripped : String × String :=
      if py_startswith base "http://" then (⟨base.data.drop 7⟩, "http://")
      else if py_startswith base "https://" then (⟨base.data.drop 8⟩, "https://")
      else (base, "")
    stripped.2 ++ ⟨stripped.1.data.takeWhile (fun c => c ≠ '/')⟩ ++ url
  else
    let chopped : String := ⟨(base.data.reverse.dropWhile (fun c => c ≠ '/')).reverse⟩
    (if chopped = "" then base ++ "/" else chopped) ++ url

/-- The rendition-selection step of `get_product_by_id` (tg_bot.py
lines 83-90): start from the picture's own `url`; let `medium` be
`formats.get("medium") or formats.get("small")`; when that rendition exists
and carries a truthy `url`, it wins.  `none` as the result models a falsy
`img_url`. -/
def select_image_url (picture : Option Picture) : Option String :=
  match picture with
  | none => none
  | some p =>
    let img_url := p.url
    let medium := p.formats_medium <|> p.formats_small
    match medium with
    | some m =>
      match m.url with
      | some u => if u = "" then img_url else some u
      | none => img_url
    | none => img_url

/-- The absolute-URL step of `get_product_by_id` (tg_bot.py lines 91-98): a
truthy selected URL is returned as is when it starts with `http://` or
`https://` and joined onto the backend base URL otherwise; a falsy selected
URL yields `""`. -/
def resolve_image_url (base_url : String) (picture : Option Picture) : String :=
  match select_image_url picture with
  | some img_url =>
    if img_url = "" then ""
    else if py_startswith img_url "http://" || py_startswith img_url "https://" then
      img_url
    else urljoin base_url img_url
  | none => ""

/-! ## Dispatcher (`handle_users_reply`, claims C4 and C9) -/

/-- The five transition handlers, as the values of the `states` dict of
`handle_users_reply` (tg_bot.py lines 762-768). -/
inductive HandlerTag where
  | start
  | handle_menu
  | handle_description
  | handle_cart
  | handle_waiting_email
deriving DecidableEq, Repr

/-- Embeds `states.get(user_state, start)` (tg_bot.py lines 762-770): look the state
label up in the dispatch table, defaulting to the `start` handler for any
label that is not one of the five keys. -/
def state_handler_for (user_state : String) : HandlerTag :=
  if user_state = STATE_START then .start
  else if user_state = STATE_HANDLE_MENU then .handle_menu
  else if user_state = STATE_HANDLE_DESCRIPTION then .handle_description
  else if user_state = STATE_HANDLE_CART then .handle_cart
  else if user_state = STATE_WAITING_EMAIL then .handle_waiting_email
  else .start

/-- The state-resolution step of `handle_users_reply` (tg_bot.py
lines 756-760): the literal text `/start` forces `STATE_START`; otherwise
the state saved in the session store is used, with a missing or falsy
(empty) value defaulting to `STATE_START`. -/
def resolve_user_state (user_reply : String) (saved_state : Option String) : String :=
  if user_reply = "/start" then STATE_START
  else
    match saved_state with
    | some s => if s = "" then STATE_START else s
    | none => STATE_START

/-- The commit step of `handle_users_reply` (tg_bot.py lines 772-777): when
the handler returns a next state it is written to the session store; when
the handler raises, the exception is swallowed (the event is dropped) and
`STATE_START` is written instead. -/
def commit_session_state (outcome : Except String String) : String :=
  match outcome with
  | .ok next_state => next_state
  | .error _ => STATE_START

/-! ## Transition handlers: next-state behaviour (claims C5, C6, C10)

An inbound update carries either a plain message (whose `text` may be
absent) or a callback query with its payload; `handle_users_reply` returns
without dispatching when it carries neither (tg_bot.py lines 747-754), so
the handlers only ever see these two shapes. -/

/-- An inbound update as seen by the handlers. -/
inductive Event where
  | message (text : Option String)
  | callback (data : String)
deriving DecidableEq, Repr

/-- Modelled from Python's `int(str)`: optional surrounding whitespace, an
optional sign, then at least one digit (digit-group underscores are not
used by this program's callback payloads). -/
def python_int_of_string (s : String) : Option Int :=
  let digits? : List Char → Option Nat := fun l =>
    if l ≠ [] ∧ l.all Char.isDigit then
      some (l.foldl (fun acc c => acc * 10 + (c.toNat - '0'.toNat)) 0)
    else none
  match (py_strip s).data with
  | '-' :: rest => (digits? rest).map fun n => -(n : Int)
  | '+' :: rest => (digits? rest).map fun n => (n : Int)
  | l => (digits? l).map fun n => (n : Int)

/-- The observable UI output of the menu, description and cart handlers.
`reply` is a `reply_text` call with the given static text; the composite
sends are folded into one effect each: `send_product_card` covers deleting
the prior menu message and sending the card (photo or text fallback),
`render_cart` covers the `show_cart` call, `render_catalog` covers building
and sending the catalog keyboard, and `confirm_added` is the
"+qty кг добавлено в корзину" confirmation whose text interpolates the
product id and quantity. -/
inductive UiEffect where
  | reply (text : String)
  | confirm_added (product_id : Int)
  | send_product_card (product_id : Int)
  | render_cart
  | render_catalog
deriving DecidableEq, Repr

/-- Embeds `handle_menu` (tg_bot.py lines 379-467) as its reply trace and
next state: a plain message replies "Нажми /start, чтобы увидеть меню." and
returns `STATE_START`; the `no_products` payload informs the user and
returns `STATE_START`; `show_cart` renders the cart and returns
`STATE_HANDLE_CART`; a payload parsing as an int shows the product card and
returns `STATE_HANDLE_DESCRIPTION` when the product lookup succeeds
(`product_found` abstracts `get_product_by_id`) and re-prompts in
`STATE_HANDLE_MENU` otherwise; an unparsable payload re-prompts in
`STATE_HANDLE_MENU`. -/
def handle_menu_run (ev : Event) (product_found : Bool) :
    List UiEffect × String :=
  match ev with
  | .message _ => ([.reply "Нажми /start, чтобы увидеть меню."], STATE_START)
  | .callback callback_data =>
    if callback_data = "no_products" then
      ([.reply "Пока нет доступных товаров."], STATE_START)
    else if callback_data = "show_cart" then ([.render_cart], STATE_HANDLE_CART)
    else
      match python_int_of_string callback_data with
      | none => ([.reply "Не понял, какой товар выбран 🤔"], STATE_HANDLE_MENU)
      | some product_id =>
        if product_found then
          ([.send_product_card product_id], STATE_HANDLE_DESCRIPTION)
        else
          ([.reply "Не удалось получить данные о товаре."], STATE_HANDLE_MENU)

/-- The next-state projection of `handle_menu`. -/
def handle_menu_next (ev : Event) (product_found : Bool) : String :=
  (handle_menu_run ev product_found).2

/-- Embeds `handle_description` (tg_bot.py lines 470-532) as its reply trace
and next state: a plain message replies "Используй кнопки под карточкой
товара или /start." and stays in `STATE_HANDLE_DESCRIPTION`; `back_to_menu`
re-renders the catalog and returns `STATE_HANDLE_MENU`; `show_cart` returns
`STATE_HANDLE_CART`; an `add_` payload parses the id after the first
underscore and stays in `STATE_HANDLE_DESCRIPTION` on every branch — bad id,
missing product (`product_found` abstracts `get_product_by_id`), add
success, or caught add failure (`add_ok` abstracts whether
`ensure_cart_exists`/`add_or_increment_item` raise); any other payload
falls through to `return STATE_HANDLE_DESCRIPTION` at line 532 with no
reply at all. -/
def handle_description_run (ev : Event) (product_found add_ok : Bool) :
    List UiEffect × String :=
  match ev with
  | .message _ =>
    ([.reply "Используй кнопки под карточкой товара или /start."],
     STATE_HANDLE_DESCRIPTION)
  | .callback callback_data =>
    if callback_data = "back_to_menu" then ([.render_catalog], STATE_HANDLE_MENU)
    else if callback_data = "show_cart" then ([.render_cart], STATE_HANDLE_CART)
    else if py_startswith callback_data "add_" then
      match python_int_of_string ⟨callback_data.data.drop 4⟩ with
      | none => ([.reply "Не понял, что добавить 🤔"], STATE_HANDLE_DESCRIPTION)
      | some product_id =>
        if ¬product_found then
          ([.reply "Товар больше не доступен 😢"], STATE_HANDLE_DESCRIPTION)
        else if add_ok then
          ([.confirm_added product_id], STATE_HANDLE_DESCRIPTION)
        else
          ([.reply "Не удалось добавить в корзину, попробуй ещё раз позже."],
           STATE_HANDLE_DESCRIPTION)
    else ([], STATE_HANDLE_DESCRIPTION)

/-- The next-state projection of `handle_description`. -/
def handle_description_next (ev : Event) (product_found add_ok : Bool) : String :=
  (handle_description_run ev product_found add_ok).2

/-- The reply the `remove_item_` branch of `handle_cart` sends for each
removal outcome (tg_bot.py lines 674-682). -/
def removal_reply : RemovalMessage → String
  | .success => "Товар удалён из корзины ✅"
  | .alreadyRemoved => "Позиция уже была удалена."
  | .failure => "Не удалось удалить товар, попробуй ещё раз позже."

/-- Embeds `handle_cart` (tg_bot.py lines 641-686) as its reply trace and
next state: a plain message replies "Используй кнопки внизу корзины." and
stays in `STATE_HANDLE_CART`; `back_to_menu` re-renders the catalog and
returns `STATE_HANDLE_MENU`; `pay` prompts for an email and returns
`STATE_WAITING_EMAIL`; a `remove_item_` payload replies with the removal
outcome (`remove_msg` abstracts the dual-delete result of lines 671-682)
and re-renders the cart in place, returning `show_cart`'s
`STATE_HANDLE_CART`; any other payload falls through to
`return STATE_HANDLE_CART` at line 686 with no reply at all. -/
def handle_cart_run (ev : Event) (remove_msg : RemovalMessage) :
    List UiEffect × String :=
  match ev with
  | .message _ => ([.reply "Используй кнопки внизу корзины."], STATE_HANDLE_CART)
  | .callback callback_data =>
    if callback_data = "back_to_menu" then ([.render_catalog], STATE_HANDLE_MENU)
    else if callback_data = "pay" then
      ([.reply "Введите, пожалуйста, ваш e-mail для связи:"], STATE_WAITING_EMAIL)
    else if py_startswith callback_data "remove_item_" then
      ([.reply (removal_reply remove_msg), .render_cart], STATE_HANDLE_CART)
    else ([], STATE_HANDLE_CART)

/-- The next-state projection of `handle_cart`. -/
def handle_cart_next (ev : Event) (remove_msg : RemovalMessage) : String :=
  (handle_cart_run ev remove_msg).2

/-- The observable side effects of `handle_waiting_email`. -/
inductive EmailEffect where
  | reply (text : String)
  | upsert_attempt (email : String)
  | render_catalog
deriving DecidableEq, Repr

/-- The email validity test of `handle_waiting_email` (tg_bot.py line 705):
the stripped text must contain both an `"@"` and a `"."`. -/
def email_is_valid (text : Option String) : Bool :=
  let email := py_strip (text.getD "")
  py_contains email '@' && py_contains email '.'

/-- Embeds `handle_waiting_email` (tg_bot.py lines 689-726) as its effect trace and
next state: a callback asks for a plain-text email and stays in
`STATE_WAITING_EMAIL`; an invalid message text re-prompts and stays; a
valid email attempts the client upsert — whose failure is caught and only
logged (`upsert_ok` abstracts whether `create_or_update_client` raises) —
then in either case sends the confirmation, re-renders the catalog and
returns `STATE_HANDLE_MENU`. -/
def handle_waiting_email_run (ev : Event) (upsert_ok : Bool) :
    List EmailEffect × String :=
  match ev with
  | .callback _ =>
    ([.reply "Пожалуйста, отправьте ваш e-mail обычным сообщением."],
     STATE_WAITING_EMAIL)
  | .message text =>
    let email := py_strip (text.getD "")
    if ¬(py_contains email '@' && py_contains email '.') then
      ([.reply "Похоже, это не e-mail. Отправьте, пожалуйста, почту ещё раз."],
       STATE_WAITING_EMAIL)
    else
      ([.upsert_attempt email,
        .reply ("Спасибо! Мы записали вашу почту: " ++ email),
        .render_catalog],
       STATE_HANDLE_MENU)

/-- The next-state projection of `handle_waiting_email`. -/
def handle_waiting_email_next (ev : Event) (upsert_ok : Bool) : String :=
  (handle_waiting_email_run ev upsert_ok).2

/-! ## Theorems -/

/-- Claim C9: if the session store holds a state label that is not one of the five
recognized dialogue states, `handle_users_reply` resolves the user state to
that label and the dispatch table's `.get` default hands the event to the
`start` handler, so no stored label leaves an event unhandled. -/
theorem dispatch_unknown_label_uses_start_handler
    (user_reply label : String)
    (h1 : label ≠ STATE_START) (h2 : label ≠ STATE_HANDLE_MENU)
    (h3 : label ≠ STATE_HANDLE_DESCRIPTION) (h4 : label ≠ STATE_HANDLE_CART)
    (h5 : label ≠ STATE_WAITING_EMAIL) :
    state_handler_for (resolve_user_state user_reply (some label)) = .start := by
  unfold resolve_user_state state_handler_for
  split_ifs with hstart hempty <;> simp_all [STATE_START, STATE_HANDLE_MENU,
    STATE_HANDLE_DESCRIPTION, STATE_HANDLE_CART, STATE_WAITING_EMAIL]

/-- Witness for C9: a corrupted label is dispatched to the start handler. -/
theorem dispatch_unknown_label_uses_start_handler_witness :
    state_handler_for (resolve_user_state "hello" (some "FUTURE_STATE")) = .start :=
  dispatch_unknown_label_uses_start_handler "hello" "FUTURE_STATE"
    (by decide) (by decide) (by decide) (by decide) (by decide)

/-- Claim C4: when a transition handler raises an unhandled failure, the commit
step of `handle_users_reply` drops the event and writes `STATE_START` into
the session store, whatever state preceded it; the next event for that chat
then resolves to `STATE_START` and is dispatched to the `start` handler. -/
theorem handler_failure_resets_state_to_start
    (error_text next_reply : String) :
    commit_session_state (.error error_text) = STATE_START ∧
      state_handler_for
        (resolve_user_state next_reply (some (commit_session_state (.error error_text))))
        = .start := by
  refine ⟨rfl, ?_⟩
  unfold commit_session_state resolve_user_state state_handler_for
  split_ifs <;> simp_all [STATE_START]

/-- Claim C6: in the WaitingEmail state a text input is accepted — moving to
`STATE_HANDLE_MENU` — exactly when the stripped text contains an `"@"` and a
`"."`; otherwise the handler re-prompts and stays in `STATE_WAITING_EMAIL`;
in particular "not-an-email" and "foo@bar" are rejected and "a@b.c" is
accepted. -/
theorem waiting_email_accepts_iff_at_and_dot (t : String) (u : Bool) :
    (handle_waiting_email_next (.message (some t)) u = STATE_HANDLE_MENU ↔
       (py_contains (py_strip t) '@' ∧ py_contains (py_strip t) '.')) ∧
    (¬(py_contains (py_strip t) '@' ∧ py_contains (py_strip t) '.') →
       handle_waiting_email_run (.message (some t)) u =
         ([.reply "Похоже, это не e-mail. Отправьте, пожалуйста, почту ещё раз."],
          STATE_WAITING_EMAIL)) ∧
    handle_waiting_email_next (.message (some "not-an-email")) u = STATE_WAITING_EMAIL ∧
    handle_waiting_email_next (.message (some "foo@bar")) u = STATE_WAITING_EMAIL ∧
    handle_waiting_email_next (.message (some "a@b.c")) u = STATE_HANDLE_MENU := by
  refine ⟨?_, ?_, by cases u <;> decide, by cases u <;> decide, by cases u <;> decide⟩
  · by_cases h : (py_contains (py_strip t) '@' && py_contains (py_strip t) '.') = true <;>
      simp [handle_waiting_email_next, handle_waiting_email_run, h,
        STATE_HANDLE_MENU, STATE_WAITING_EMAIL] <;>
      simp_all
  · intro h
    have hb : (py_contains (py_strip t) '@' && py_contains (py_strip t) '.') ≠ true := by
      simpa using h
    simp [handle_waiting_email_run, hb]

/-- Witness for C6: the acceptance equivalence evaluated at "a@b.c". -/
theorem waiting_email_accepts_iff_at_and_dot_witness :
    handle_waiting_email_next (.message (some "a@b.c")) true = STATE_HANDLE_MENU :=
  (waiting_email_accepts_iff_at_and_dot "a@b.c" true).1.mpr (by decide)

/-- Claim C10: in the WaitingEmail state a valid email text always produces the
upsert attempt, the "Спасибо! Мы записали вашу почту" confirmation and the
catalog re-render and moves to `STATE_HANDLE_MENU`, also when the
contact-backend upsert raises (`upsert_ok = false`): the failure is caught
and only logged. -/
theorem waiting_email_confirms_even_if_upsert_fails (t : String) (u : Bool)
    (hvalid : email_is_valid (some t) = true) :
    handle_waiting_email_run (.message (some t)) u =
      ([.upsert_attempt (py_strip t),
        .reply ("Спасибо! Мы записали вашу почту: " ++ py_strip t),
        .render_catalog],
       STATE_HANDLE_MENU) := by
  have hb : (py_contains (py_strip t) '@' && py_contains (py_strip t) '.') = true := by
    simpa [email_is_valid] using hvalid
  simp [handle_waiting_email_run, hb]

/-- Witness for C10: a failing upsert still yields the confirmation, catalog
render and transition to the menu. -/
theorem waiting_email_confirms_even_if_upsert_fails_witness :
    email_is_valid (some "a@b.com") = true ∧
      handle_waiting_email_run (.message (some "a@b.com")) false =
        ([.upsert_attempt (py_strip "a@b.com"),
          .reply ("Спасибо! Мы записали вашу почту: " ++ py_strip "a@b.com"),
          .render_catalog],
         STATE_HANDLE_MENU) :=
  ⟨by decide, waiting_email_confirms_even_if_upsert_fails "a@b.com" false (by decide)⟩

/-- Counterexample for C5: the claim fails in two ways on concrete inputs.
A plain text message received while in the Menu state is answered with a
"press /start" prompt and moves the session to `STATE_START`, not
`STATE_HANDLE_MENU` (tg_bot.py lines 381-384); and the unmatched callback
payload "7" — a stale product button pressed while in the Description or
Cart state — returns silently, with no help prompt at all and the state
unchanged (the fall-throughs at tg_bot.py lines 532 and 686). -/
theorem menu_text_and_silent_fallthrough_counterexample :
    handle_menu_run (.message (some "hello")) true =
      ([.reply "Нажми /start, чтобы увидеть меню."], STATE_START) ∧
      STATE_START ≠ STATE_HANDLE_MENU ∧
      handle_description_run (.callback "7") true true =
        ([], STATE_HANDLE_DESCRIPTION) ∧
      handle_cart_run (.callback "7") .success = ([], STATE_HANDLE_CART) := by
  refine ⟨rfl, by decide, by decide, by decide⟩

/-- Amended claim C5: an event matching none of the listed transitions leaves
the dialogue state unchanged in the Description, Cart and WaitingEmail
states, and an unparsable callback selection re-prompts in place in the
Menu state; but the help prompt is only produced for plain text messages in
Description and Cart, for button presses in WaitingEmail and for unparsable
selections in Menu — an unmatched callback payload in Description or Cart
returns silently with no reply at all — and a plain text message received
while in the Menu state is answered with a prompt to press /start and moves
the state to Start, not Menu. -/
theorem unmatched_events_keep_state_except_menu_text
    (t : Option String) (d : String) (u pf ao b : Bool) (rm : RemovalMessage) :
    handle_description_run (.message t) pf ao =
      ([.reply "Используй кнопки под карточкой товара или /start."],
       STATE_HANDLE_DESCRIPTION) ∧
    handle_cart_run (.message t) rm =
      ([.reply "Используй кнопки внизу корзины."], STATE_HANDLE_CART) ∧
    handle_waiting_email_run (.callback d) u =
      ([.reply "Пожалуйста, отправьте ваш e-mail обычным сообщением."],
       STATE_WAITING_EMAIL) ∧
    (d ≠ "no_products" → d ≠ "show_cart" → python_int_of_string d = none →
       handle_menu_run (.callback d) b =
         ([.reply "Не понял, какой товар выбран 🤔"], STATE_HANDLE_MENU)) ∧
    (d ≠ "back_to_menu" → d ≠ "show_cart" → py_startswith d "add_" = false →
       handle_description_run (.callback d) pf ao = ([], STATE_HANDLE_DESCRIPTION)) ∧
    (d ≠ "back_to_menu" → d ≠ "pay" → py_startswith d "remove_item_" = false →
       handle_cart_run (.callback d) rm = ([], STATE_HANDLE_CART)) ∧
    handle_menu_run (.message t) b =
      ([.reply "Нажми /start, чтобы увидеть меню."], STATE_START) := by
  refine ⟨rfl, rfl, rfl, ?_, ?_, ?_, rfl⟩
  · intro h1 h2 h3
    simp [handle_menu_run, h1, h2, h3]
  · intro h1 h2 h3
    simp [handle_description_run, h1, h2, h3]
  · intro h1 h2 h3
    simp [handle_cart_run, h1, h2, h3]

/-- Witness for the amended C5: the unrecognized payload "mystery_button"
re-prompts in place in Menu, falls through silently in Description and Cart
with the state unchanged, and a text message in Menu is answered with the
/start prompt and lands in `STATE_START`. -/
theorem unmatched_events_keep_state_except_menu_text_witness :
    handle_menu_run (.callback "mystery_button") true =
      ([.reply "Не понял, какой товар выбран 🤔"], STATE_HANDLE_MENU) ∧
      handle_description_run (.callback "mystery_button") true true =
        ([], STATE_HANDLE_DESCRIPTION) ∧
      handle_cart_run (.callback "mystery_button") .success =
        ([], STATE_HANDLE_CART) ∧
      handle_menu_run (.message (some "hi")) true =
        ([.reply "Нажми /start, чтобы увидеть меню."], STATE_START) := by
  have h := unmatched_events_keep_state_except_menu_text (some "hi")
    "mystery_button" true true true true .success
  exact ⟨h.2.2.2.1 (by decide) (by decide) (by decide),
         h.2.2.2.2.1 (by decide) (by decide) (by decide),
         h.2.2.2.2.2.1 (by decide) (by decide) (by decide),
         h.2.2.2.2.2.2⟩

/-- Counterexample for C2: the two removal operations are not both attempted on
every request, and a removal with one successful operation can still be
reported as a failure.  When the hard delete answers 500, its
`raise_for_status` aborts the `try` block before the soft hide is ever
called; and when the hard delete succeeds (status 200) but the soft hide
answers 500, the raised error reaches the same `except` and the user is
told the removal failed although the hard delete succeeded. -/
theorem remove_item_not_both_attempted_counterexample :
    (handle_cart_remove_item 500 200).hide_attempted = false ∧
      delete_cart_item_response 200 = .ok true ∧
      (handle_cart_remove_item 200 500).message = .failure :=
  ⟨rfl, rfl, rfl⟩

/-- On a status that is 404 or a success, `delete_cart_item` does not raise:
it returns `True` exactly on a success status, `False` on 404. -/
theorem delete_cart_item_response_no_raise (s : Nat) (h : s = 404 ∨ s < 400) :
    delete_cart_item_response s = .ok (decide (s < 400)) := by
  rcases h with h | h
  · subst h; rfl
  · unfold delete_cart_item_response
    rw [if_neg (by omega), if_neg (by omega)]
    have hs : decide (s < 400) = true := by simpa using h
    rw [hs]

/-- On a status that is 404 or a success, `hide_cart_item` does not raise: it
returns `True` exactly on a success status, `False` on 404. -/
theorem hide_cart_item_response_no_raise (s : Nat) (h : s = 404 ∨ s < 400) :
    hide_cart_item_response s = .ok (decide (s < 400)) := by
  rcases h with h | h
  · subst h; rfl
  · unfold hide_cart_item_response update_cart_item_qty_response
    rw [if_neg (by omega), if_neg (by omega)]
    have hs : decide (s < 400) = true := by simpa using h
    rw [hs]
    rfl

/-- Amended claim C2: on removal requests where neither backend call answers a
non-404 error status (each call either succeeds or answers 404), both the
hard delete and the soft hide are attempted and the removal is reported
successful exactly when at least one of the two succeeds; a 404 on either
call is a suppressed, expected outcome (the delete returns `False`, the
hide's update returns `None`, no exception), and when both calls answer 404
the user is told the item was already removed.  When either call answers a
non-404 error the `try` block aborts: an erroring hard delete skips the
soft hide, and the removal is reported as a failure even if the other call
succeeded. -/
theorem remove_item_dual_mechanism (delete_status hide_status : Nat)
    (hd : delete_status = 404 ∨ delete_status < 400)
    (hh : hide_status = 404 ∨ hide_status < 400) :
    (handle_cart_remove_item delete_status hide_status).delete_attempted = true ∧
    (handle_cart_remove_item delete_status hide_status).hide_attempted = true ∧
    ((handle_cart_remove_item delete_status hide_status).message = .success ↔
       (delete_status < 400 ∨ hide_status < 400)) ∧
    ((handle_cart_remove_item delete_status hide_status).message = .alreadyRemoved ↔
       (delete_status = 404 ∧ hide_status = 404)) ∧
    delete_cart_item_response 404 = .ok false ∧
    hide_cart_item_response 404 = .ok false := by
  have hde := delete_cart_item_response_no_raise _ hd
  have hhi := hide_cart_item_response_no_raise _ hh
  have hout : handle_cart_remove_item delete_status hide_status =
      ⟨true, true,
       if (decide (delete_status < 400) || decide (hide_status < 400)) then
         .success
       else .alreadyRemoved⟩ := by
    unfold handle_cart_remove_item
    rw [hde, hhi]
  refine ⟨by rw [hout], by rw [hout], ?_, ?_, rfl, rfl⟩
  · rw [hout]
    by_cases h1 : delete_status < 400 <;> by_cases h2 : hide_status < 400 <;>
      simp [h1, h2]
  · rw [hout]
    by_cases h1 : delete_status < 400 <;> by_cases h2 : hide_status < 400 <;>
      simp [h1, h2] <;> omega

/-- Claim C7: `ensure_cart_exists` is an idempotent lookup-or-create: it returns
the cart found for the chat identity with the backend unchanged, creates
one only when none exists (after which exactly one cart for the identity is
stored), and calling it again returns the same cart without touching the
backend. -/
theorem ensure_cart_exists_idempotent (s : CartBackend) (tg : String) :
    (∀ c, get_cart_by_tg s tg = some c → ensure_cart_exists s tg = (c, s)) ∧
    (get_cart_by_tg s tg = none →
       ensure_cart_exists s tg = create_cart_for_tg s tg ∧
       ((ensure_cart_exists s tg).2.carts.filter fun c => c.tg_id = tg) =
         [(ensure_cart_exists s tg).1]) ∧
    ensure_cart_exists (ensure_cart_exists s tg).2 tg = ensure_cart_exists s tg := by
  refine ⟨?_, ?_, ?_⟩
  · intro c h
    unfold ensure_cart_exists
    rw [h]
  · intro h
    have hfil : (s.carts.filter fun c => c.tg_id = tg) = [] := by
      have := List.head?_eq_none_iff.mp h
      simpa [get_cart_by_tg] using this
    unfold ensure_cart_exists
    rw [h]
    refine ⟨rfl, ?_⟩
    simp [create_cart_for_tg, List.filter_append, hfil]
  · cases hget : get_cart_by_tg s tg with
    | some c => simp [ensure_cart_exists, hget]
    | none =>
      have hfil : (s.carts.filter fun c => c.tg_id = tg) = [] := by
        have := List.head?_eq_none_iff.mp hget
        simpa [get_cart_by_tg] using this
      simp [ensure_cart_exists, create_cart_for_tg, get_cart_by_tg, hget,
        List.filter_append, hfil]

/-- Witness for C7: a backend holding a cart for the chat identity "42"
returns that cart unchanged, and from an empty backend a second
`ensure_cart_exists` returns the first call's cart and backend unchanged. -/
theorem ensure_cart_exists_idempotent_witness :
    ensure_cart_exists ⟨[⟨1, "42"⟩], 1⟩ "42" = (⟨1, "42"⟩, ⟨[⟨1, "42"⟩], 1⟩) ∧
      ensure_cart_exists (ensure_cart_exists ⟨[], 0⟩ "42").2 "42" =
        ensure_cart_exists (⟨[], 0⟩ : CartBackend) "42" :=
  ⟨(ensure_cart_exists_idempotent ⟨[⟨1, "42"⟩], 1⟩ "42").1 ⟨1, "42"⟩ rfl,
   (ensure_cart_exists_idempotent ⟨[], 0⟩ "42").2.2⟩

/-- Claim C8: `get_product_by_id` resolves the image URL by preferring the medium
rendition's URL, then — when no medium rendition is present — the small
rendition's URL, then the original picture URL; it returns `""` when no
image is present, and a selected URL that does not start with `http://` or
`https://` is joined onto the backend base URL while an absolute one is
returned as is. -/
theorem product_image_url_preference (base_url : String) (p : Picture) :
    (∀ u, p.formats_medium = some ⟨some u⟩ → u ≠ "" →
       select_image_url (some p) = some u) ∧
    (p.formats_medium = none → ∀ u, p.formats_small = some ⟨some u⟩ → u ≠ "" →
       select_image_url (some p) = some u) ∧
    (p.formats_medium = none → p.formats_small = none →
       select_image_url (some p) = p.url) ∧
    resolve_image_url base_url none = "" ∧
    (select_image_url (some p) = none → resolve_image_url base_url (some p) = "") ∧
    (select_image_url (some p) = some "" → resolve_image_url base_url (some p) = "") ∧
    (∀ u, select_image_url (some p) = some u → u ≠ "" →
       (py_startswith u "http://" || py_startswith u "https://") = false →
       resolve_image_url base_url (some p) = urljoin base_url u) ∧
    (∀ u, select_image_url (some p) = some u → u ≠ "" →
       (py_startswith u "http://" || py_startswith u "https://") = true →
       resolve_image_url base_url (some p) = u) := by
  refine ⟨?_, ?_, ?_, rfl, ?_, ?_, ?_, ?_⟩
  · intro u hm hu
    simp [select_image_url, hm, hu]
  · intro hm u hs hu
    simp [select_image_url, hm, hs, hu]
  · intro hm hs
    simp [select_image_url, hm, hs]
  · intro h
    simp [resolve_image_url, h]
  · intro h
    simp [resolve_image_url, h]
  · intro u h hu hsw
    simp [resolve_image_url, h, hu, hsw]
  · intro u h hu hsw
    simp [resolve_image_url, h, hu, hsw]

/-- Witness for C8: a picture whose formats hold only a small rendition with
a relative URL selects that URL and joins it onto the base URL. -/
theorem product_image_url_preference_witness :
    select_image_url
        (some ⟨some "/uploads/orig.jpg", none, some ⟨some "/uploads/small.jpg"⟩⟩) =
      some "/uploads/small.jpg" ∧
    resolve_image_url "http://localhost:1337"
        (some ⟨some "/uploads/orig.jpg", none, some ⟨some "/uploads/small.jpg"⟩⟩) =
      urljoin "http://localhost:1337" "/uploads/small.jpg" := by
  have h := product_image_url_preference "http://localhost:1337"
    ⟨some "/uploads/orig.jpg", none, some ⟨some "/uploads/small.jpg"⟩⟩
  have hsel := h.2.1 rfl "/uploads/small.jpg" rfl (by decide)
  exact ⟨hsel, h.2.2.2.2.2.2.1 "/uploads/small.jpg" hsel (by decide) (by decide)⟩

/-- Witness for the amended C2: hard delete succeeds, soft hide answers 404;
both calls are attempted and the removal is reported successful. -/
theorem remove_item_dual_mechanism_witness :
    (handle_cart_remove_item 200 404).delete_attempted = true ∧
      (handle_cart_remove_item 200 404).hide_attempted = true ∧
      (handle_cart_remove_item 200 404).message = .success := by
  have h := remove_item_dual_mechanism 200 404 (Or.inr (by decide)) (Or.inl rfl)
  exact ⟨h.1, h.2.1, h.2.2.1.mpr (Or.inl (by decide))⟩

/-- The item loop of `show_cart` in closed form: it renders, totals and emits
a removal button for exactly the items whose identifier is present, in
order. -/
theorem show_cart_loop_eq (l : List CartItemView) :
    show_cart_loop l =
      (l.filterMap (fun it => it.key.map fun _ =>
         (⟨it.qty_kg, (it.product.map ProductRec.price).getD 0,
           it.qty_kg * (it.product.map ProductRec.price).getD 0⟩ : RenderEntry)),
       (l.filterMap (fun it => it.key.map fun _ =>
         it.qty_kg * (it.product.map ProductRec.price).getD 0)).sum,
       l.filterMap (fun it => it.key.map CartButton.remove)) := by
  induction l with
  | nil => simp [show_cart_loop]
  | cons it rest ih =>
    cases hk : it.key with
    | none => simp [show_cart_loop, hk, ih]
    | some k => simp [show_cart_loop, hk, ih]

/-- When every item in the list carries an identifier, a loop over the
identifier-bearing items is a plain map. -/
theorem filterMap_key_all_some {α : Type} (f : CartItemView → α)
    (l : List CartItemView) (h : ∀ it ∈ l, it.key.isSome) :
    l.filterMap (fun it => it.key.map fun _ => f it) = l.map f := by
  induction l with
  | nil => rfl
  | cons it rest ih =>
    obtain ⟨k, hk⟩ := Option.isSome_iff_exists.mp (h it (by simp))
    simp [List.filterMap_cons, hk, ih fun x hx => h x (by simp [hx])]

/-- When every item in the list carries an identifier, the loop emits exactly
one removal button per item. -/
theorem filterMap_key_remove_length (l : List CartItemView)
    (h : ∀ it ∈ l, it.key.isSome) :
    (l.filterMap (fun it => it.key.map CartButton.remove)).length = l.length := by
  induction l with
  | nil => rfl
  | cons it rest ih =>
    obtain ⟨k, hk⟩ := Option.isSome_iff_exists.mp (h it (by simp))
    simp [List.filterMap_cons, hk, ih fun x hx => h x (by simp [hx])]

/-- Claim C3: cart rendering excludes every item whose stored quantity is `<= 0`;
over the remaining items — each carrying an identifier, as backend records
do — it emits, in backend return order, one entry with
`subtotal = qty * price` and one removal button keyed by the item's
identifier, and the displayed total is the sum of `qty * price` over
exactly the included items; a missing cart or an emptied item list shows
the placeholder whose only action is back-to-menu, so no pay action is
offered from an empty cart; and the identifier prefers the `documentId`
over the numeric id when both are present. -/
theorem show_cart_rendering (cart : CartRec) (items_raw : List CartItemView)
    (hkeys : ∀ it ∈ items_raw, it.key.isSome) :
    show_cart_render none items_raw = empty_cart_render ∧
    ((items_raw.filter fun it => ¬it.qty_kg ≤ 0) = [] →
       show_cart_render (some cart) items_raw = empty_cart_render) ∧
    empty_cart_render.buttons = [.back_to_menu] ∧
    ((items_raw.filter fun it => ¬it.qty_kg ≤ 0) ≠ [] →
       (show_cart_render (some cart) items_raw).is_empty_placeholder = false ∧
       (show_cart_render (some cart) items_raw).entries =
         (items_raw.filter fun it => ¬it.qty_kg ≤ 0).map (fun it =>
           ⟨it.qty_kg, (it.product.map ProductRec.price).getD 0,
            it.qty_kg * (it.product.map ProductRec.price).getD 0⟩) ∧
       (show_cart_render (some cart) items_raw).total =
         ((items_raw.filter fun it => ¬it.qty_kg ≤ 0).map (fun it =>
            it.qty_kg * (it.product.map ProductRec.price).getD 0)).sum ∧
       (show_cart_render (some cart) items_raw).buttons =
         ((items_raw.filter fun it => ¬it.qty_kg ≤ 0).filterMap
            (fun it => it.key.map CartButton.remove)) ++ [.pay] ++ [.back_to_menu] ∧
       ((show_cart_render (some cart) items_raw).buttons).length =
         (items_raw.filter fun it => ¬it.qty_kg ≤ 0).length + 2) ∧
    (∀ d i, d ≠ "" → get_cart_item_identifier (some d) i = some (.doc d)) := by
  have hkeys' : ∀ it ∈ (items_raw.filter fun it => ¬it.qty_kg ≤ 0), it.key.isSome :=
    fun it hit => hkeys it (List.mem_filter.mp hit).1
  refine ⟨rfl, ?_, rfl, ?_, ?_⟩
  · intro h
    have he : (items_raw.filter fun it => ¬it.qty_kg ≤ 0).isEmpty = true := by
      rw [h]; rfl
    unfold show_cart_render
    rw [he]
    rfl
  · intro hne
    have hemp : (items_raw.filter fun it => ¬it.qty_kg ≤ 0).isEmpty = false := by
      rcases he : (items_raw.filter fun it => ¬it.qty_kg ≤ 0).isEmpty with _ | _
      · exact he
      · exact absurd (List.isEmpty_iff.mp he) hne
    have hrender : show_cart_render (some cart) items_raw =
        ⟨false,
         (show_cart_loop (items_raw.filter fun it => ¬it.qty_kg ≤ 0)).1,
         (show_cart_loop (items_raw.filter fun it => ¬it.qty_kg ≤ 0)).2.1,
         (show_cart_loop (items_raw.filter fun it => ¬it.qty_kg ≤ 0)).2.2
           ++ [.pay] ++ [.back_to_menu]⟩ := by
      unfold show_cart_render
      rw [hemp]
      rfl
    have hfinal : show_cart_render (some cart) items_raw =
        ⟨false,
         (items_raw.filter fun it => ¬it.qty_kg ≤ 0).map (fun it =>
           ⟨it.qty_kg, (it.product.map ProductRec.price).getD 0,
            it.qty_kg * (it.product.map ProductRec.price).getD 0⟩),
         ((items_raw.filter fun it => ¬it.qty_kg ≤ 0).map (fun it =>
            it.qty_kg * (it.product.map ProductRec.price).getD 0)).sum,
         ((items_raw.filter fun it => ¬it.qty_kg ≤ 0).filterMap
            (fun it => it.key.map CartButton.remove)) ++ [.pay] ++ [.back_to_menu]⟩ := by
      rw [hrender, show_cart_loop_eq,
        filterMap_key_all_some (fun it =>
          (⟨it.qty_kg, (it.product.map ProductRec.price).getD 0,
            it.qty_kg * (it.product.map ProductRec.price).getD 0⟩ : RenderEntry))
          _ hkeys',
        filterMap_key_all_some (fun it =>
          it.qty_kg * (it.product.map ProductRec.price).getD 0) _ hkeys']
    refine ⟨by rw [hfinal], by rw [hfinal], by rw [hfinal], by rw [hfinal], ?_⟩
    rw [hfinal]
    simp only [List.length_append, List.length_cons, List.length_nil]
    rw [filterMap_key_remove_length _ hkeys']
  · intro d i hd
    simp [get_cart_item_identifier, hd]

/-- Witness for C3: a two-item fetch where one item has quantity 0 renders
only the positive-quantity item, totals its subtotal, and offers exactly
its removal button plus pay and back-to-menu. -/
theorem show_cart_rendering_witness :
    (show_cart_render (some ⟨1, "42"⟩)
        [⟨10, some "doc10", 0, some ⟨7, "Сельдь", 100⟩⟩,
         ⟨11, some "doc11", 2, some ⟨8, "Треска", 300⟩⟩]).is_empty_placeholder
        = false ∧
    (show_cart_render (some ⟨1, "42"⟩)
        [⟨10, some "doc10", 0, some ⟨7, "Сельдь", 100⟩⟩,
         ⟨11, some "doc11", 2, some ⟨8, "Треска", 300⟩⟩]).entries
        = [⟨2, 300, 600⟩] ∧
    (show_cart_render (some ⟨1, "42"⟩)
        [⟨10, some "doc10", 0, some ⟨7, "Сельдь", 100⟩⟩,
         ⟨11, some "doc11", 2, some ⟨8, "Треска", 300⟩⟩]).total = 600 ∧
    (show_cart_render (some ⟨1, "42"⟩)
        [⟨10, some "doc10", 0, some ⟨7, "Сельдь", 100⟩⟩,
         ⟨11, some "doc11", 2, some ⟨8, "Треска", 300⟩⟩]).buttons
        = [.remove (.doc "doc11"), .pay, .back_to_menu] := by
  have h := show_cart_rendering ⟨1, "42"⟩
    [⟨10, some "doc10", 0, some ⟨7, "Сельдь", 100⟩⟩,
     ⟨11, some "doc11", 2, some ⟨8, "Треска", 300⟩⟩]
    (by decide)
  obtain ⟨-, -, -, hmain, -⟩ := h
  obtain ⟨h1, h2, h3, h4, -⟩ := hmain (by decide)
  have hfil : (([⟨10, some "doc10", 0, some ⟨7, "Сельдь", 100⟩⟩,
       ⟨11, some "doc11", 2, some ⟨8, "Треска", 300⟩⟩] :
         List CartItemView).filter (fun it => ¬it.qty_kg ≤ 0)) =
      [⟨11, some "doc11", 2, some ⟨8, "Треска", 300⟩⟩] := by
    simp only [List.filter_cons, List.filter_nil]
    norm_num
  refine ⟨h1, ?_, ?_, ?_⟩
  · rw [h2, hfil]
    simp only [List.map_cons, List.map_nil, Option.map_some', Option.getD_some]
    norm_num
  · rw [h3, hfil]
    simp only [List.map_cons, List.map_nil, Option.map_some', Option.getD_some,
      List.sum_cons, List.sum_nil]
    norm_num
  · rw [h4, hfil]
    rfl

/-- No stored item of a well-formed backend carries the key the backend will
assign to the next created item. -/
theorem key_ne_fresh (s : Backend) (hwf : Backend.wf s) (x : Item)
    (hx : x ∈ s.items) : ¬x.key = some (ItemKey.num (s.nextId + 1)) := by
  intro hcon
  obtain ⟨hpos, hle, hdoc⟩ := hwf x hx
  unfold Item.key get_cart_item_identifier at hcon
  cases hxd : x.documentId with
  | none =>
    simp only [hxd] at hcon
    rw [if_neg (by omega : ¬x.id = 0)] at hcon
    simp only [Option.some.injEq, ItemKey.num.injEq] at hcon
    omega
  | some d =>
    simp only [hxd] at hcon
    rw [if_neg (hdoc d hxd)] at hcon
    simp at hcon

/-- After a hard delete of a key, no item with that key is found. -/
theorem find?_hard_delete (s : Backend) (k : ItemKey) :
    (hard_delete_by_key s k).items.find? (fun x => x.key = some k) = none := by
  apply List.find?_eq_none.mpr
  intro x hx
  have hmem := List.mem_filter.mp hx
  simpa using hmem.2

/-- Claim C1: `add_or_increment_item` creates an item with `qty_to_add` when the
(cart, product) pair has no item; updates the found item's quantity to
`current + qty_to_add` when it has one; falls back to creating a fresh item
with the summed quantity when the update reports the record gone (a
concurrent hard delete between the find and the update); and two sequential
calls with quantities `a` then `b` starting from a pair with no item leave
exactly one item for the pair, with quantity `a + b`, never two. -/
theorem add_or_increment_item_behaviour (s : Backend) (c p : Nat) (a b q : ℚ)
    (it : Item) (k : ItemKey) :
    (find_cart_item s c p = none →
       add_or_increment_item s c p q = create_cart_item s c p q) ∧
    (find_cart_item s c p = some it → it.key = some k →
       s.items.find? (fun x => x.key = some k) = some it →
       add_or_increment_item s c p q =
         ({ it with qty_kg := it.qty_kg + q },
          ⟨s.items.map fun x =>
             if x.key = some k then { x with qty_kg := it.qty_kg + q } else x,
           s.nextId⟩)) ∧
    (find_cart_item s c p = some it → it.key = some k →
       add_or_increment_item_racy true s c p q =
         create_cart_item (hard_delete_by_key s k) c p (it.qty_kg + q)) ∧
    (itemsForPair s c p = [] → Backend.wf s →
       itemsForPair
           (add_or_increment_item (add_or_increment_item s c p a).2 c p b).2 c p
         = [⟨s.nextId + 1, none, c, p, a + b⟩]) := by
  refine ⟨?_, ?_, ?_, ?_⟩
  · intro h
    simp only [add_or_increment_item, add_or_increment_item_racy, h]
  · intro hf hk hres
    simp only [add_or_increment_item, add_or_increment_item_racy, hf, hk,
      update_cart_item_qty, hres, Bool.false_eq_true, if_false]
  · intro hf hk
    simp only [add_or_increment_item_racy, hf, hk, if_true,
      update_cart_item_qty, find?_hard_delete]
  · intro hemp hwf
    unfold itemsForPair at hemp
    have h1 : find_cart_item s c p = none := by
      unfold find_cart_item
      rw [hemp]
      rfl
    have hstep1 : add_or_increment_item s c p a = create_cart_item s c p a := by
      simp only [add_or_increment_item, add_or_increment_item_racy, h1]
    have hs1 : (add_or_increment_item s c p a).2 =
        ⟨s.items ++ [⟨s.nextId + 1, none, c, p, a⟩], s.nextId + 1⟩ := by
      rw [hstep1]
      rfl
    have hfind2 : find_cart_item ⟨s.items ++ [⟨s.nextId + 1, none, c, p, a⟩],
        s.nextId + 1⟩ c p = some ⟨s.nextId + 1, none, c, p, a⟩ := by
      unfold find_cart_item
      rw [List.filter_append, hemp]
      simp
    have hkeyN : (⟨s.nextId + 1, none, c, p, a⟩ : Item).key =
        some (.num (s.nextId + 1)) := by
      simp only [Item.key, get_cart_item_identifier]
      rw [if_neg (by omega : ¬s.nextId + 1 = 0)]
    have hfindkey : (s.items ++ [(⟨s.nextId + 1, none, c, p, a⟩ : Item)]).find?
        (fun x => x.key = some (.num (s.nextId + 1))) =
        some ⟨s.nextId + 1, none, c, p, a⟩ := by
      rw [List.find?_append]
      have hnone : s.items.find?
          (fun x => x.key = some (.num (s.nextId + 1))) = none :=
        List.find?_eq_none.mpr fun x hx => by
          simpa using key_ne_fresh s hwf x hx
      rw [hnone]
      simp [List.find?_cons, hkeyN]
    have hmap : (s.items ++ [(⟨s.nextId + 1, none, c, p, a⟩ : Item)]).map
        (fun x => if x.key = some (.num (s.nextId + 1)) then
           { x with qty_kg := a + b } else x) =
        s.items ++ [⟨s.nextId + 1, none, c, p, a + b⟩] := by
      rw [List.map_append]
      have hid : s.items.map
          (fun x => if x.key = some (.num (s.nextId + 1)) then
             { x with qty_kg := a + b } else x) = s.items.map id :=
        List.map_congr_left fun x hx => by
          rw [if_neg (key_ne_fresh s hwf x hx)]
          rfl
      rw [hid, List.map_id]
      simp [hkeyN]
    have hupd : update_cart_item_qty
        ⟨s.items ++ [⟨s.nextId + 1, none, c, p, a⟩], s.nextId + 1⟩
        (.num (s.nextId + 1)) (a + b) =
        (some ⟨s.nextId + 1, none, c, p, a + b⟩,
         ⟨s.items ++ [⟨s.nextId + 1, none, c, p, a + b⟩], s.nextId + 1⟩) := by
      unfold update_cart_item_qty
      rw [hfindkey, hmap]
    have hstep2 : add_or_increment_item
        ⟨s.items ++ [⟨s.nextId + 1, none, c, p, a⟩], s.nextId + 1⟩ c p b =
        (⟨s.nextId + 1, none, c, p, a + b⟩,
         ⟨s.items ++ [⟨s.nextId + 1, none, c, p, a + b⟩], s.nextId + 1⟩) := by
      simp only [add_or_increment_item, add_or_increment_item_racy, hfind2, hkeyN,
        Bool.false_eq_true, if_false, hupd]
    rw [hs1, hstep2]
    unfold itemsForPair
    rw [List.filter_append, hemp]
    simp

/-- Witness for C1: from an empty backend, adding 3 kg then 4 kg of product 2
to cart 1 first creates the item, then leaves exactly one item for the pair
holding 3 + 4 kg. -/
theorem add_or_increment_item_behaviour_witness :
    add_or_increment_item ⟨[], 0⟩ 1 2 (3 : ℚ) = create_cart_item ⟨[], 0⟩ 1 2 3 ∧
      itemsForPair
          (add_or_increment_item (add_or_increment_item ⟨[], 0⟩ 1 2 3).2 1 2 4).2 1 2
        = [⟨1, none, 1, 2, 3 + 4⟩] := by
  have h := add_or_increment_item_behaviour ⟨[], 0⟩ 1 2 3 4 3
    ⟨1, none, 1, 2, 3⟩ (.num 1)
  exact ⟨h.1 rfl, h.2.2.2 rfl (by intro x hx; simp at hx)⟩

end TgBot
